import Mathlib

/-
Verification of the BIDS conversion script `raw/bids.py` (rats_fmri).

The script loads an Excel metadata table with pandas, forward-fills the two
TR columns, normalizes subject identifiers, writes `dataset_description.json`
and `participants.tsv`, and then, for each on-disk subject directory whose
lowercased name starts with "rat", looks up the matching metadata row,
converts the raw data with dcm2niix, and classifies each produced scan by
TR proximity (functional checked first, then anatomical, strict `<` against
the tolerance 0.05), injecting `TaskName = "visual"` into functional sidecars
before relocating the file pair.

The shallow embedding below models the pure data flow of `convert_dataset`:
  - Excel cells (including pandas NaN for blank cells and Python's
    `str(nan) = "nan"` stringification),
  - `ffill` on the two TR columns,
  - `clean_id` normalization,
  - the row lookup `df[df.clean_id == key]` followed by `.values[0]`,
  - Python `float()` on a cell (NaN passes through as NaN; a non-numeric
    string raises, which the script catches by skipping the subject),
  - IEEE comparison semantics: any comparison against NaN is false,
  - the per-scan classification / augmentation / move logic.
Filesystem and subprocess effects are modelled as data in the `Env` input
(the dcm2niix output of each directory) and the `Output` record (what would
be written / moved), with a trace of which subject records were consulted
and which scans reached the classification logic.
-/

namespace RatsBids

/-- A cell of the subject-identifier column: a string, or a blank cell
(pandas reads a blank Excel cell as the float NaN). -/
inductive XCell where
  | str (s : String)
  | missing
deriving DecidableEq

/-- Python `str()` applied to such a cell: `str(nan)` is the literal string
"nan". -/
def pyStr : XCell → String
  | XCell.str s => s
  | XCell.missing => "nan"

/-- Python `.strip()`: drop leading and trailing whitespace. -/
def pyStrip (s : String) : String :=
  String.mk (((s.data.dropWhile Char.isWhitespace).reverse.dropWhile Char.isWhitespace).reverse)

/-- Python `.lower()`. -/
def pyLower (s : String) : String :=
  String.mk (s.data.map Char.toLower)

/-- Python `.replace(' ', '')`: remove every space character. -/
def pyRemoveSpaces (s : String) : String :=
  String.mk (s.data.filter (fun c => c ≠ ' '))

/-- Python `s.lower().startswith(pre)` as used in the directory filter. -/
def pyStartsWithRat (s : String) : Bool :=
  List.isPrefixOf ("rat").data (pyLower s).data

/-- `clean_id(val)`: `str(val).lower().strip().replace(' ', '')`. -/
def clean_id (val : XCell) : String :=
  pyRemoveSpaces (pyStrip (pyLower (pyStr val)))

/-- A cell of a TR column as pandas reads it: a number, a blank (NaN), or a
non-numeric text entry (which pandas keeps as a string object). -/
inductive TRCell where
  | num (q : ℚ)
  | blank
  | text (s : String)
deriving DecidableEq

/-- Whether a TR cell holds a number. -/
def TRCell.isNum : TRCell → Bool
  | TRCell.num _ => true
  | _ => false

/-- A Python float value restricted to what the script produces: a rational
or NaN. `float(nan)` succeeds and yields NaN. -/
inductive FVal where
  | num (q : ℚ)
  | nan
deriving DecidableEq

/-- Python `float()` on a TR cell: a number converts, a blank cell (NaN)
converts to NaN without raising, and a non-numeric text cell raises
ValueError (modelled as `Except.error`; a numeric-looking string, which
`float()` would parse, is outside the modelled cell space). -/
def pyFloat : TRCell → Except String FVal
  | TRCell.num q => Except.ok (FVal.num q)
  | TRCell.blank => Except.ok FVal.nan
  | TRCell.text s => Except.error s

/-- One raw row of the Excel table: `rat.ID`, `anat.TR`, `func.TR`,
optional `rat.gender`. -/
structure Row where
  ratID : XCell
  anatTR : TRCell
  funcTR : TRCell
  gender : Option String
deriving DecidableEq

/-- One row of the cleaned DataFrame: the TR columns after `ffill` and the
added `clean_id` column. -/
structure DfRow where
  clean_id : String
  ratID : XCell
  anatTR : TRCell
  funcTR : TRCell
  gender : Option String
deriving DecidableEq

/-- One `ffill` step on a single cell, given the last non-missing value seen
above in the same column: pandas fills only NaN (blank) cells. -/
def fillCell (last : Option TRCell) (c : TRCell) : TRCell × Option TRCell :=
  match c with
  | TRCell.blank =>
    match last with
    | some v => (v, some v)
    | none => (TRCell.blank, none)
  | v => (v, some v)

/-- `df[['anat.TR','func.TR']] = df[['anat.TR','func.TR']].ffill()` together
with `df['clean_id'] = df['rat.ID'].apply(clean_id)`, carrying the last
non-missing value of each TR column down the rows. -/
def loadDfAux : Option TRCell → Option TRCell → List Row → List DfRow
  | _, _, [] => []
  | la, lf, r :: rest =>
    let pa := fillCell la r.anatTR
    let pf := fillCell lf r.funcTR
    { clean_id := clean_id r.ratID, ratID := r.ratID,
      anatTR := pa.1, funcTR := pf.1, gender := r.gender }
      :: loadDfAux pa.2 pf.2 rest

/-- The cleaned DataFrame built from the raw table. -/
def loadDf (rows : List Row) : List DfRow :=
  loadDfAux none none rows

/-- `row = df[df['clean_id'] == key]` followed by the `row.empty` test and
`row[...].values[0]`: the first row of the frame whose `clean_id` equals the
key, if any. -/
def lookupRow (df : List DfRow) (key : String) : Option DfRow :=
  (df.filter (fun r => r.clean_id == key)).head?

/-- `TR_TOLERANCE = 0.05`. -/
def TR_TOLERANCE : ℚ := 5 / 100

/-- Python `abs` on a number. -/
def pyAbs (q : ℚ) : ℚ :=
  if q < 0 then -q else q

/-- `abs(actual - target) < tol` under IEEE semantics: any comparison
involving NaN is false. The actual TR is always a number in the script
(a read failure or a missing field gives the sentinel `-1`). -/
def absLt (actual : ℚ) (target : FVal) (tol : ℚ) : Bool :=
  match target with
  | FVal.num q => decide (pyAbs (actual - q) < tol)
  | FVal.nan => false

/-- The classification verdict of one scan. -/
inductive Verdict where
  | functional
  | anatomical
  | unclassified
deriving DecidableEq

/-- The matching logic: `if abs(actual_tr - func_tr_target) < TR_TOLERANCE`
first, `elif abs(actual_tr - anat_tr_target) < TR_TOLERANCE` second, else
fall through to `continue`. -/
def classify (actual : ℚ) (funcTarget anatTarget : FVal) (tol : ℚ) : Verdict :=
  if absLt actual funcTarget tol then Verdict.functional
  else if absLt actual anatTarget tol then Verdict.anatomical
  else Verdict.unclassified

/-- A JSON scalar value as found in a dcm2niix sidecar. -/
inductive JVal where
  | jstr (s : String)
  | jnum (q : ℚ)
  | jbool (b : Bool)
  | jnull
deriving DecidableEq

/-- A sidecar document: an ordered field list, as `json.load` yields a dict
(keys unique, insertion-ordered). -/
abbrev Sidecar := List (String × JVal)

/-- `dict.get(k)` / `dict[k]` read: the first field with the given key. -/
def getField (doc : Sidecar) (k : String) : Option JVal :=
  (doc.find? (fun p => p.1 == k)).map (fun p => p.2)

/-- Replacement of one entry during a `dict[k] = v` write: an entry whose
key is `k` becomes `(k, v)`, any other entry is untouched. -/
def replaceEntry (k : String) (v : JVal) (p : String × JVal) : String × JVal :=
  if p.1 == k then (k, v) else p

/-- `dict[k] = v`: overwrite the field in place if the key is present
(keeping its position), else append it at the end. -/
def setField (doc : Sidecar) (k : String) (v : JVal) : Sidecar :=
  if doc.any (fun p => p.1 == k) then doc.map (replaceEntry k v)
  else doc ++ [(k, v)]

/-- `jdata['TaskName'] = "visual"` before the functional move. -/
def augmentSidecar (doc : Sidecar) : Sidecar :=
  setField doc ("TaskName") (JVal.jstr ("visual"))

/-- `actual_tr = data.get('RepetitionTime', -1)`, with the enclosing
`try/except` producing `-1` when the sidecar file cannot be read or parsed.
A present but non-numeric `RepetitionTime` would crash the script later at
the subtraction (an uncaught TypeError); no claim touches that case, and the
embedding maps it to the same sentinel `-1`. -/
def getActualTR (side : Except Unit Sidecar) : ℚ :=
  match side with
  | Except.error _ => -1
  | Except.ok doc =>
    match getField doc ("RepetitionTime") with
    | some (JVal.jnum q) => q
    | some _ => -1
    | none => -1

/-- One dcm2niix output pair: the sidecar JSON file (its parsed content, or
`Except.error` if unreadable) and whether the companion `.nii.gz` exists. -/
structure Scan where
  name : String
  hasImage : Bool
  sidecar : Except Unit Sidecar

/-- One subject directory under the data root, with the scans dcm2niix
produces into its `temp_bids` scratch folder. -/
structure SubjectDir where
  name : String
  scans : List Scan

/-- One planned `shutil.move` of an image/sidecar pair. -/
structure Move where
  subject : String
  dest_folder : String
  new_name : String
  scan : String
deriving DecidableEq

/-- The effects of processing the scans of one subject: planned moves,
sidecars augmented with TaskName, and the trace of scans that reached the
classification logic with their verdicts. -/
structure SubOut where
  moves : List Move
  augmented : List String
  classified : List (String × Verdict)
deriving DecidableEq

/-- The per-scan body of the loop over `json_files`: skip (continue) when
the companion image is absent, before the sidecar is even opened; otherwise
read the actual TR, classify, augment on the functional branch, and plan the
move, or fall through without effects. -/
def processScan (sub : String) (funcT anatT : FVal) (tol : ℚ) (sc : Scan) : SubOut :=
  if sc.hasImage then
    match classify (getActualTR sc.sidecar) funcT anatT tol with
    | Verdict.functional =>
      { moves := [{ subject := sub, dest_folder := ("func"),
                    new_name := ("sub-" ++ sub ++ "_ses-01_task-visual_bold"),
                    scan := sc.name }],
        augmented := [sc.name],
        classified := [(sc.name, Verdict.functional)] }
    | Verdict.anatomical =>
      { moves := [{ subject := sub, dest_folder := ("anat"),
                    new_name := ("sub-" ++ sub ++ "_ses-01_T2w"),
                    scan := sc.name }],
        augmented := [],
        classified := [(sc.name, Verdict.anatomical)] }
    | Verdict.unclassified =>
      { moves := [], augmented := [], classified := [(sc.name, Verdict.unclassified)] }
  else { moves := [], augmented := [], classified := [] }

/-- Concatenation of per-scan effects in loop order. -/
def mergeSubOut (a b : SubOut) : SubOut :=
  { moves := a.moves ++ b.moves,
    augmented := a.augmented ++ b.augmented,
    classified := a.classified ++ b.classified }

/-- The loop over the subject's scans. -/
def processScans (sub : String) (funcT anatT : FVal) (tol : ℚ) : List Scan → SubOut
  | [] => { moves := [], augmented := [], classified := [] }
  | sc :: rest =>
    mergeSubOut (processScan sub funcT anatT tol sc) (processScans sub funcT anatT tol rest)

/-- Processing of one subject directory: normalize the directory name, look
up the first matching row (skip with a warning if none), convert the two TR
cells with `float()` inside try/except (skip the subject if either raises),
then run the scan loop. The first component records the consulted
(func target, anat target) pair, when one was computed. -/
def processSubject (df : List DfRow) (tol : ℚ) (d : SubjectDir) :
    List (String × FVal × FVal) × SubOut :=
  let sub := clean_id (XCell.str d.name)
  match lookupRow df sub with
  | none => ([], { moves := [], augmented := [], classified := [] })
  | some r =>
    match pyFloat r.anatTR, pyFloat r.funcTR with
    | Except.ok a, Except.ok f => ([(sub, f, a)], processScans sub f a tol d.scans)
    | _, _ => ([], { moves := [], augmented := [], classified := [] })

/-- The input world of one run: the result of `pd.read_excel` (error when
the file cannot be read or parsed) and the subdirectories of the data root
with what dcm2niix would produce for each. -/
structure Env where
  excel : Except String (List Row)
  dirs : List SubjectDir

/-- The observable outcome of one run. `participants = none` means
`participants.tsv` was never written. -/
structure Output where
  dataset_description_written : Bool
  participants : Option (List String)
  consulted : List (String × FVal × FVal)
  moves : List Move
  augmented : List String
  classified : List (String × Verdict)
deriving DecidableEq

/-- Concatenation of a list of lists, in order. -/
def concatAll : List (List α) → List α
  | [] => []
  | l :: ls => l ++ concatAll ls

/-- `convert_dataset()`: on a metadata load failure, print and return with
nothing done (the `setup_bids` and `participants.tsv` writes come after the
try block); otherwise build the cleaned frame, write the dataset description
and one `participants.tsv` row per frame row (`"sub-" + clean_id`), filter
the data-root subdirectories to those whose lowercased name starts with
"rat", and process each in order. -/
def convert_dataset (env : Env) : Output :=
  match env.excel with
  | Except.error _ =>
    { dataset_description_written := false, participants := none,
      consulted := [], moves := [], augmented := [], classified := [] }
  | Except.ok rows =>
    let df := loadDf rows
    let participants := df.map (fun r => ("sub-" ++ r.clean_id))
    let subject_dirs := env.dirs.filter (fun d => pyStartsWithRat d.name)
    let results := subject_dirs.map (processSubject df TR_TOLERANCE)
    { dataset_description_written := true,
      participants := some participants,
      consulted := concatAll (results.map (fun p => p.1)),
      moves := concatAll (results.map (fun p => p.2.moves)),
      augmented := concatAll (results.map (fun p => p.2.augmented)),
      classified := concatAll (results.map (fun p => p.2.classified)) }

/-- The reconciled subject records in the sense of the specification: the
distinct normalized keys whose row (first the spec-side mapping, here every
row carrying them) has both TR cells numeric after forward-fill. Stated from
the spec's words, for comparison with what the script writes. -/
def keysDistinct : List String → List String
  | [] => []
  | k :: ks => if k ∈ ks then keysDistinct ks else k :: keysDistinct ks

/-- Spec-side count of reconciled `SubjectRecord`s: unique normalized keys
with recoverable (numeric after ffill) TR values. -/
def spec_reconciledKeys (rows : List Row) : List String :=
  keysDistinct (((loadDf rows).filter
    (fun r => r.anatTR.isNum && r.funcTR.isNum)).map (fun r => r.clean_id))

/-! ### Helper lemmas -/

theorem pyAbs_eq_abs (q : ℚ) : pyAbs q = abs q := by
  by_cases h : q < 0
  · rw [pyAbs, if_pos h, abs_of_neg h]
  · rw [pyAbs, if_neg h, abs_of_nonneg (not_lt.1 h)]

theorem loadDfAux_length (la lf : Option TRCell) (rows : List Row) :
    (loadDfAux la lf rows).length = rows.length := by
  induction rows generalizing la lf with
  | nil => rfl
  | cons r rest ih => simp [loadDfAux, ih]

theorem loadDfAux_map_participant (la lf : Option TRCell) (rows : List Row) :
    (loadDfAux la lf rows).map (fun r => ("sub-" ++ r.clean_id)) =
      rows.map (fun r => ("sub-" ++ clean_id r.ratID)) := by
  induction rows generalizing la lf with
  | nil => rfl
  | cons r rest ih => simp [loadDfAux, ih]

theorem processScan_nanTargets (sub : String) (tol : ℚ) (sc : Scan) :
    processScan sub FVal.nan FVal.nan tol sc =
      if sc.hasImage then
        { moves := [], augmented := [], classified := [(sc.name, Verdict.unclassified)] }
      else { moves := [], augmented := [], classified := [] } := by
  cases sc with
  | mk n hi side => cases hi <;> simp [processScan, classify, absLt]

theorem processScans_nanTargets (sub : String) (tol : ℚ) (scans : List Scan) :
    processScans sub FVal.nan FVal.nan tol scans =
      { moves := [], augmented := [],
        classified := (scans.filter (fun sc => sc.hasImage)).map
          (fun sc => (sc.name, Verdict.unclassified)) } := by
  induction scans with
  | nil => rfl
  | cons sc rest ih =>
    by_cases hi : sc.hasImage <;>
      simp [processScans, mergeSubOut, processScan_nanTargets, hi, ih, List.filter_cons]

theorem replaceEntry_key (k : String) (v : JVal) (p : String × JVal) :
    ((replaceEntry k v p).1 == k) = (p.1 == k) := by
  by_cases h : (p.1 == k) = true <;> simp [replaceEntry, h]

theorem any_map_replaceEntry (k : String) (v : JVal) (doc : List (String × JVal)) :
    (doc.map (replaceEntry k v)).any (fun p => p.1 == k) =
      doc.any (fun p => p.1 == k) := by
  rw [List.any_map]
  congr 1
  funext p
  exact replaceEntry_key k v p

theorem find?_map_replaceEntry_self (k : String) (v : JVal)
    (t : List (String × JVal)) (h : t.any (fun p => p.1 == k) = true) :
    (t.map (replaceEntry k v)).find? (fun p => p.1 == k) = some (k, v) := by
  induction t with
  | nil => simp at h
  | cons a t ih =>
    by_cases ha : (a.1 == k) = true
    · simp [List.find?_cons, replaceEntry, ha]
    · have ha2 : (a.1 == k) = false := Bool.of_not_eq_true ha
      have h2 : t.any (fun p => p.1 == k) = true := by
        rw [List.any_cons, ha2, Bool.false_or] at h
        exact h
      simp [List.find?_cons, replaceEntry, ha2, ih h2]

theorem find?_append_single_self (k : String) (v : JVal)
    (doc : List (String × JVal)) (h : doc.any (fun p => p.1 == k) = false) :
    (doc ++ [(k, v)]).find? (fun p => p.1 == k) = some (k, v) := by
  induction doc with
  | nil => simp [List.find?]
  | cons a t ih =>
    rw [List.any_cons, Bool.or_eq_false_iff] at h
    obtain ⟨ha, ht⟩ := h
    simp [List.find?_cons, ha, ih ht]

theorem getField_setField_self (doc : Sidecar) (k : String) (v : JVal) :
    getField (setField doc k v) k = some v := by
  by_cases hany : doc.any (fun p => p.1 == k) = true
  · rw [setField, if_pos hany, getField, find?_map_replaceEntry_self k v doc hany]
    rfl
  · rw [setField, if_neg hany, getField,
      find?_append_single_self k v doc (Bool.of_not_eq_true hany)]
    rfl

theorem find?_map_replaceEntry_ne (k j : String) (v : JVal) (hjk : j ≠ k)
    (t : List (String × JVal)) :
    (t.map (replaceEntry k v)).find? (fun p => p.1 == j) =
      t.find? (fun p => p.1 == j) := by
  induction t with
  | nil => rfl
  | cons a t ih =>
    by_cases hak : (a.1 == k) = true
    · have hkj : (k == j) = false := by
        simp only [beq_eq_false_iff_ne]
        exact Ne.symm hjk
      have haj : (a.1 == j) = false := by
        simp only [beq_eq_false_iff_ne]
        rw [eq_of_beq hak]
        exact Ne.symm hjk
      simp [List.find?_cons, replaceEntry, hak, hkj, haj, ih]
    · by_cases haj : (a.1 == j) = true <;>
        simp [List.find?_cons, replaceEntry, hak, haj, ih]

theorem find?_append_single_ne (k j : String) (v : JVal) (hjk : j ≠ k)
    (doc : List (String × JVal)) :
    (doc ++ [(k, v)]).find? (fun p => p.1 == j) =
      doc.find? (fun p => p.1 == j) := by
  have hkj : (k == j) = false := by
    simp only [beq_eq_false_iff_ne]
    exact Ne.symm hjk
  induction doc with
  | nil => simp [List.find?, hkj]
  | cons a t ih =>
    by_cases haj : (a.1 == j) = true <;> simp [List.find?_cons, haj, ih]

theorem getField_setField_ne (doc : Sidecar) (k j : String) (v : JVal)
    (hjk : j ≠ k) :
    getField (setField doc k v) j = getField doc j := by
  by_cases hany : doc.any (fun p => p.1 == k) = true
  · rw [setField, if_pos hany, getField, find?_map_replaceEntry_ne k j v hjk doc, getField]
  · rw [setField, if_neg hany, getField, find?_append_single_ne k j v hjk doc, getField]

theorem replaceEntry_idem (k : String) (v : JVal) (p : String × JVal) :
    replaceEntry k v (replaceEntry k v p) = replaceEntry k v p := by
  by_cases h : (p.1 == k) = true <;> simp [replaceEntry, h]

theorem map_replaceEntry_of_any_false (k : String) (v : JVal)
    (doc : List (String × JVal)) (h : doc.any (fun p => p.1 == k) = false) :
    doc.map (replaceEntry k v) = doc := by
  induction doc with
  | nil => rfl
  | cons a t ih =>
    rw [List.any_cons, Bool.or_eq_false_iff] at h
    obtain ⟨h1, h2⟩ := h
    simp [replaceEntry, h1, ih h2]

theorem setField_idem (doc : Sidecar) (k : String) (v : JVal) :
    setField (setField doc k v) k v = setField doc k v := by
  by_cases hany : doc.any (fun p => p.1 == k) = true
  · have h1 : setField doc k v = doc.map (replaceEntry k v) := by
      rw [setField, if_pos hany]
    have h2 : (doc.map (replaceEntry k v)).any (fun p => p.1 == k) = true := by
      rw [any_map_replaceEntry]
      exact hany
    rw [h1, setField, if_pos h2, List.map_map]
    have : replaceEntry k v ∘ replaceEntry k v = replaceEntry k v := by
      funext p
      exact replaceEntry_idem k v p
    rw [this]
  · have h1 : setField doc k v = doc ++ [(k, v)] := by
      rw [setField, if_neg hany]
    have h2 : (doc ++ [(k, v)]).any (fun p => p.1 == k) = true := by
      rw [List.any_append]
      simp
    rw [h1, setField, if_pos h2, List.map_append,
      map_replaceEntry_of_any_false k v doc (Bool.of_not_eq_true hany)]
    simp [replaceEntry]

/-! ### Claims -/

/-- Claim C3: for every actual TR value, subject record and tolerance, the
functional comparison is evaluated before the anatomical one: when both the
functional and the anatomical target fall strictly within the tolerance of
the actual value, the verdict is `Functional` and never `Anatomical`; a scan
is never assigned both categories. -/
theorem C3_func_checked_first (actual tol : ℚ) (funcT anatT : FVal)
    (hf : absLt actual funcT tol = true) (_ha : absLt actual anatT tol = true) :
    classify actual funcT anatT tol = Verdict.functional ∧
    classify actual funcT anatT tol ≠ Verdict.anatomical := by
  rw [classify, if_pos hf]
  exact ⟨rfl, fun h => Verdict.noConfusion h⟩

/-- Claim C3 witness: the spec instance funcTR = anatTR = 1.0, tolerance
0.05, actual value 1.0 classifies as Functional, never Anatomical. -/
theorem C3_func_checked_first_witness :
    classify 1 (FVal.num 1) (FVal.num 1) TR_TOLERANCE = Verdict.functional ∧
    classify 1 (FVal.num 1) (FVal.num 1) TR_TOLERANCE ≠ Verdict.anatomical :=
  C3_func_checked_first 1 TR_TOLERANCE (FVal.num 1) (FVal.num 1)
    (by with_unfolding_all decide) (by with_unfolding_all decide)

/-- Claim C4: tolerance matching is a strict inequality: a numeric target
matches iff `|actual - target| < tol`; a difference exactly equal to the
tolerance does not match, and the scan falls through to the next check (or
to Unclassified when that also fails). -/
theorem C4_strict_tolerance (actual target tol : ℚ) (anatT : FVal) :
    (absLt actual (FVal.num target) tol = true ↔ abs (actual - target) < tol) ∧
    (abs (actual - target) = tol →
      absLt actual (FVal.num target) tol = false ∧
      classify actual (FVal.num target) anatT tol =
        (if absLt actual anatT tol then Verdict.anatomical else Verdict.unclassified)) := by
  have hiff : absLt actual (FVal.num target) tol = true ↔ abs (actual - target) < tol := by
    rw [absLt, pyAbs_eq_abs]
    exact decide_eq_true_iff
  refine ⟨hiff, fun heq => ?_⟩
  have hfalse : absLt actual (FVal.num target) tol = false := by
    rw [absLt, pyAbs_eq_abs, heq, decide_eq_false_iff_not]
    exact lt_irrefl tol
  exact ⟨hfalse, by rw [classify, if_neg (by rw [hfalse]; exact Bool.false_ne_true)]⟩

/-- Claim C4 witness: with actual value 1, target 19/20 and tolerance 1/20
the difference equals the tolerance exactly and the target does not match. -/
theorem C4_strict_tolerance_witness :
    absLt 1 (FVal.num (19/20)) (1/20) = false ∧
    classify 1 (FVal.num (19/20)) FVal.nan (1/20) = Verdict.unclassified :=
  have h := (C4_strict_tolerance 1 (19/20) (1/20) FVal.nan).2
    (by with_unfolding_all decide)
  ⟨h.1, by rw [h.2]; rfl⟩

/-- Claim C5: when a scan sidecar lacks the RepetitionTime field, the script
uses the sentinel -1; for positive anatomical and functional targets and the
default tolerance 0.05 the sentinel is outside both windows, so the scan is
always Unclassified. -/
theorem C5_missing_tr_unclassified (aq fq : ℚ) (doc : Sidecar)
    (hA : 0 < aq) (hF : 0 < fq)
    (hmiss : getField doc ("RepetitionTime") = none) :
    getActualTR (Except.ok doc) = -1 ∧
    classify (getActualTR (Except.ok doc)) (FVal.num fq) (FVal.num aq) TR_TOLERANCE =
      Verdict.unclassified := by
  have hTR : getActualTR (Except.ok doc) = -1 := by
    rw [getActualTR, hmiss]
  have key : ∀ q : ℚ, 0 < q → absLt (-1) (FVal.num q) TR_TOLERANCE = false := by
    intro q hq
    have habs : pyAbs (-1 - q) = 1 + q := by
      rw [pyAbs, if_pos (by linarith)]
      ring
    rw [absLt, habs, decide_eq_false_iff_not, TR_TOLERANCE]
    intro hcon
    linarith
  refine ⟨hTR, ?_⟩
  rw [hTR, classify, if_neg (by rw [key fq hF]; exact Bool.false_ne_true),
    if_neg (by rw [key aq hA]; exact Bool.false_ne_true)]

/-- Claim C5 witness: an empty sidecar with anat target 3 and func target 1
classifies as Unclassified. -/
theorem C5_missing_tr_unclassified_witness :
    classify (getActualTR (Except.ok ([] : Sidecar))) (FVal.num 1) (FVal.num 3)
      TR_TOLERANCE = Verdict.unclassified :=
  (C5_missing_tr_unclassified 3 1 [] (by decide) (by decide) rfl).2

/-- Claim C9: a sidecar JSON whose companion `.nii.gz` image does not exist
is skipped by `continue` before the sidecar is even opened: whatever the
sidecar content or readability, the scan produces no move, no augmentation
and never reaches the classification logic. -/
theorem C9_orphan_sidecar_skipped (sub : String) (funcT anatT : FVal) (tol : ℚ)
    (n : String) (side : Except Unit Sidecar) :
    processScan sub funcT anatT tol { name := n, hasImage := false, sidecar := side } =
      { moves := [], augmented := [], classified := [] } :=
  rfl

/-- Claim C7: augmenting a functional sidecar sets exactly the TaskName
field to "visual", leaves every other field unchanged, is idempotent, and
the per-scan logic never augments a sidecar whose verdict is not
Functional. -/
theorem C7_augment_taskname (doc : Sidecar) :
    getField (augmentSidecar doc) ("TaskName") = some (JVal.jstr ("visual")) ∧
    (∀ k, k ≠ ("TaskName") → getField (augmentSidecar doc) k = getField doc k) ∧
    augmentSidecar (augmentSidecar doc) = augmentSidecar doc ∧
    (∀ (sub : String) (funcT anatT : FVal) (tol : ℚ) (sc : Scan),
      classify (getActualTR sc.sidecar) funcT anatT tol ≠ Verdict.functional →
      (processScan sub funcT anatT tol sc).augmented = []) := by
  refine ⟨getField_setField_self doc _ _,
    fun k hk => getField_setField_ne doc _ k _ hk,
    setField_idem doc _ _, ?_⟩
  intro sub funcT anatT tol sc hne
  cases sc with
  | mk n hi side =>
    cases hi
    · rfl
    · have hside : Scan.sidecar { name := n, hasImage := true, sidecar := side } = side := rfl
      rw [hside] at hne
      rw [processScan]
      cases hc : classify (getActualTR side) funcT anatT tol with
      | functional => exact absurd hc hne
      | anatomical => simp [hc]
      | unclassified => simp [hc]

/-- Claim C7 witness: augmenting a one-field sidecar preserves the
RepetitionTime field. -/
theorem C7_augment_taskname_witness :
    getField (augmentSidecar [(("RepetitionTime"), JVal.jnum 2)]) ("RepetitionTime") =
      getField [(("RepetitionTime"), JVal.jnum 2)] ("RepetitionTime") :=
  (C7_augment_taskname [(("RepetitionTime"), JVal.jnum 2)]).2.1
    ("RepetitionTime") (by decide)

/-- A one-row table whose TR cells are blank with no preceding value: the
forward-fill cannot recover them. -/
def rowsC1 : List Row :=
  [{ ratID := XCell.str ("Rat 7"), anatTR := TRCell.blank, funcTR := TRCell.blank,
     gender := none }]

/-- A run over `rowsC1` with a matching disk directory holding one scan with
actual TR 1.0. -/
def envC1 : Env :=
  { excel := Except.ok rowsC1,
    dirs := [{ name := ("rat7"),
               scans := [{ name := ("5_EPI"), hasImage := true,
                           sidecar := Except.ok [(("RepetitionTime"), JVal.jnum 1)] }] }] }

/-- Claim C1 counterexample: a row whose TR cells cannot be forward-filled
is NOT excluded from the mapping and its subject is NOT skipped before
classification: `float(nan)` does not raise, so the record is consulted with
NaN in both TR fields and the subject's scan still reaches the
classification logic (falling through to Unclassified). -/
theorem C1_counterexample_nan_row_consulted :
    (convert_dataset envC1).consulted = [(("rat7"), FVal.nan, FVal.nan)] ∧
    (convert_dataset envC1).classified = [(("5_EPI"), Verdict.unclassified)] ∧
    (convert_dataset envC1).classified ≠ [] := by decide

/-- Claim C1 (amended): a row whose TR cells remain blank after forward-fill
is kept; its subject is processed with NaN targets, the record consulted for
it carries NaN in both TR fields, and since every tolerance comparison with
NaN is false, no scan of that subject is moved or augmented — each one that
reaches classification is Unclassified. -/
theorem C1_unfillable_row_processed (df : List DfRow) (tol : ℚ) (d : SubjectDir)
    (r : DfRow) (hlook : lookupRow df (clean_id (XCell.str d.name)) = some r)
    (ha : r.anatTR = TRCell.blank) (hf : r.funcTR = TRCell.blank) :
    (processSubject df tol d).1 = [(clean_id (XCell.str d.name), FVal.nan, FVal.nan)] ∧
    (processSubject df tol d).2.moves = [] ∧
    (processSubject df tol d).2.augmented = [] ∧
    ∀ p ∈ (processSubject df tol d).2.classified, p.2 = Verdict.unclassified := by
  have hps : processSubject df tol d =
      ([(clean_id (XCell.str d.name), FVal.nan, FVal.nan)],
        processScans (clean_id (XCell.str d.name)) FVal.nan FVal.nan tol d.scans) := by
    simp only [processSubject, hlook, ha, hf, pyFloat]
  rw [hps, processScans_nanTargets]
  refine ⟨rfl, rfl, rfl, ?_⟩
  intro p hp
  rw [List.mem_map] at hp
  obtain ⟨sc, _, hpeq⟩ := hp
  rw [← hpeq]

/-- Claim C1 amended witness: the concrete blank-TR table and subject. -/
theorem C1_unfillable_row_processed_witness :
    (processSubject (loadDf rowsC1) TR_TOLERANCE { name := ("rat7"), scans := [] }).2.moves
      = [] :=
  (C1_unfillable_row_processed (loadDf rowsC1) TR_TOLERANCE
    { name := ("rat7"), scans := [] }
    { clean_id := ("rat7"), ratID := XCell.str ("Rat 7"), anatTR := TRCell.blank,
      funcTR := TRCell.blank, gender := none }
    (by decide) rfl rfl).2.1

/-- Two metadata rows normalizing to the same key with different TR pairs. -/
def rowsC2 : List Row :=
  [{ ratID := XCell.str ("Rat 7"), anatTR := TRCell.num 1, funcTR := TRCell.num 4,
     gender := none },
   { ratID := XCell.str ("rat7"), anatTR := TRCell.num 2, funcTR := TRCell.num 5,
     gender := none }]

/-- A run over `rowsC2` with a matching disk directory. -/
def envC2 : Env :=
  { excel := Except.ok rowsC2, dirs := [{ name := ("rat7"), scans := [] }] }

/-- Claim C2 counterexample: with duplicate keys the record consulted for
classification is the FIRST matching row (func 4, anat 1), not the later row
(func 5, anat 2): `.values[0]` on the filtered frame is first-write-wins,
not last-write-wins. -/
theorem C2_counterexample_first_row_wins :
    (convert_dataset envC2).consulted = [(("rat7"), FVal.num 4, FVal.num 1)] ∧
    (convert_dataset envC2).consulted ≠ [(("rat7"), FVal.num 5, FVal.num 2)] := by
  decide

/-- Claim C2 (amended): when the same normalized key appears in several rows
the record consulted for that subject is the EARLIEST matching row of the
table — rows before it that do not match are skipped, and later duplicates
are ignored. -/
theorem C2_lookup_first_match (df1 df2 : List DfRow) (r : DfRow) (key : String)
    (hr : r.clean_id = key) (h1 : ∀ x ∈ df1, x.clean_id ≠ key) :
    lookupRow (df1 ++ r :: df2) key = some r := by
  induction df1 with
  | nil => simp [lookupRow, List.filter_cons, hr]
  | cons a l ih =>
    have ha : (a.clean_id == key) = false := by
      simp only [beq_eq_false_iff_ne]
      exact h1 a (List.mem_cons_self a l)
    have ih2 := ih (fun x hx => h1 x (List.mem_cons_of_mem a hx))
    simpa [lookupRow, List.filter_cons, ha] using ih2

/-- Claim C2 amended witness: the duplicate-key frame of `rowsC2`. -/
theorem C2_lookup_first_match_witness :
    lookupRow
      [{ clean_id := ("rat7"), ratID := XCell.str ("Rat 7"), anatTR := TRCell.num 1,
         funcTR := TRCell.num 4, gender := none },
       { clean_id := ("rat7"), ratID := XCell.str ("rat7"), anatTR := TRCell.num 2,
         funcTR := TRCell.num 5, gender := none }] ("rat7") =
      some { clean_id := ("rat7"), ratID := XCell.str ("Rat 7"), anatTR := TRCell.num 1,
             funcTR := TRCell.num 4, gender := none } :=
  C2_lookup_first_match []
    [{ clean_id := ("rat7"), ratID := XCell.str ("rat7"), anatTR := TRCell.num 2,
       funcTR := TRCell.num 5, gender := none }]
    { clean_id := ("rat7"), ratID := XCell.str ("Rat 7"), anatTR := TRCell.num 1,
      funcTR := TRCell.num 4, gender := none }
    ("rat7") rfl (fun x hx => absurd hx (List.not_mem_nil x))

/-- Two rows with recoverable TRs that normalize to the same key. -/
def rowsC6 : List Row :=
  [{ ratID := XCell.str ("Rat 7"), anatTR := TRCell.num 3, funcTR := TRCell.num 1,
     gender := none },
   { ratID := XCell.str ("rat 7"), anatTR := TRCell.num 3, funcTR := TRCell.num 1,
     gender := none }]

/-- A run over `rowsC6` with no disk directories at all. -/
def envC6 : Env := { excel := Except.ok rowsC6, dirs := [] }

/-- Claim C6 counterexample: `participants.tsv` gets one row per table row,
so with two duplicate rows it has 2 data rows while there is only 1
reconciled subject record (unique key with recoverable TRs): the counts
differ. -/
theorem C6_counterexample_duplicate_rows :
    (convert_dataset envC6).participants = some [("sub-rat7"), ("sub-rat7")] ∧
    [("sub-rat7"), ("sub-rat7")].length = 2 ∧
    (spec_reconciledKeys rowsC6).length = 1 ∧
    (2 : Nat) ≠ 1 := by decide

/-- Claim C6 (amended): the number of data rows written to participants.tsv
equals the number of rows of the metadata table — duplicate keys and rows
with unrecoverable TR values included — independent of the disk contents. -/
theorem C6_participants_rows_eq_table_rows (env : Env) (rows : List Row)
    (h : env.excel = Except.ok rows) :
    (convert_dataset env).participants =
      some ((loadDf rows).map (fun r => ("sub-" ++ r.clean_id))) ∧
    ∀ l, (convert_dataset env).participants = some l → l.length = rows.length := by
  obtain ⟨ex, dirs⟩ := env
  have h2 : ex = Except.ok rows := h
  subst h2
  have hp : (convert_dataset { excel := Except.ok rows, dirs := dirs }).participants =
      some ((loadDf rows).map (fun r => ("sub-" ++ r.clean_id))) := rfl
  refine ⟨hp, fun l hl => ?_⟩
  rw [hp, Option.some.injEq] at hl
  rw [← hl, List.length_map, loadDf, loadDfAux_length]

/-- Claim C6 amended witness: the duplicate-key table. -/
theorem C6_participants_rows_eq_table_rows_witness :
    (convert_dataset envC6).participants =
      some ((loadDf rowsC6).map (fun r => ("sub-" ++ r.clean_id))) :=
  (C6_participants_rows_eq_table_rows envC6 rowsC6 rfl).1

/-- A run whose metadata table cannot be read. -/
def envC8 : Env := { excel := Except.error ("No such file or directory"), dirs := [] }

/-- Claim C8: if the metadata table cannot be read or parsed, the run aborts
with nothing converted: no dataset_description.json, no participants.tsv, no
record consulted, no scan classified, augmented or moved. -/
theorem C8_metadata_failure_aborts (env : Env) (msg : String)
    (h : env.excel = Except.error msg) :
    convert_dataset env =
      { dataset_description_written := false, participants := none,
        consulted := [], moves := [], augmented := [], classified := [] } := by
  obtain ⟨ex, dirs⟩ := env
  have h2 : ex = Except.error msg := h
  subst h2
  rfl

/-- Claim C8 witness: a concrete unreadable-table run. -/
theorem C8_metadata_failure_aborts_witness :
    convert_dataset envC8 =
      { dataset_description_written := false, participants := none,
        consulted := [], moves := [], augmented := [], classified := [] } :=
  C8_metadata_failure_aborts envC8 ("No such file or directory") rfl

/-- A table whose only row has a missing subject-identifier cell. -/
def rowC10 : Row :=
  { ratID := XCell.missing, anatTR := TRCell.num 1, funcTR := TRCell.num 2, gender := none }

/-- A run over the missing-identifier table. -/
def envC10 : Env := { excel := Except.ok [rowC10], dirs := [] }

/-- Claim C10: a metadata row whose subject-identifier cell is missing is
not excluded: `clean_id` stringifies the NaN marker to the literal key
"nan", the row contributes a "sub-nan" row to participants.tsv, and the row
lookup for any directory whose normalized name is "nan" finds a row instead
of coming back empty. -/
theorem C10_missing_id_becomes_nan :
    clean_id XCell.missing = ("nan") ∧
    (∀ (env : Env) (rows : List Row) (r : Row), env.excel = Except.ok rows →
      r ∈ rows → r.ratID = XCell.missing →
      ∃ l, (convert_dataset env).participants = some l ∧ ("sub-nan") ∈ l) ∧
    (∀ (df : List DfRow) (r : DfRow), r ∈ df → r.clean_id = ("nan") →
      lookupRow df ("nan") ≠ none) := by
  refine ⟨rfl, ?_, ?_⟩
  · intro env rows r h hmem hmiss
    obtain ⟨ex, dirs⟩ := env
    have h2 : ex = Except.ok rows := h
    subst h2
    have hp : (convert_dataset { excel := Except.ok rows, dirs := dirs }).participants =
        some ((loadDf rows).map (fun x => ("sub-" ++ x.clean_id))) := rfl
    refine ⟨(loadDf rows).map (fun x => ("sub-" ++ x.clean_id)), hp, ?_⟩
    rw [loadDf, loadDfAux_map_participant]
    have hm : ("sub-" ++ clean_id r.ratID) ∈
        rows.map (fun x => ("sub-" ++ clean_id x.ratID)) :=
      List.mem_map_of_mem _ hmem
    rw [hmiss] at hm
    exact hm
  · intro df r hmem hkey
    have hr : r ∈ df.filter (fun x => x.clean_id == ("nan")) :=
      List.mem_filter.2 ⟨hmem, by simp [hkey]⟩
    intro hnone
    rw [lookupRow] at hnone
    cases hfil : df.filter (fun x => x.clean_id == ("nan")) with
    | nil =>
      rw [hfil] at hr
      exact absurd hr (List.not_mem_nil r)
    | cons a t =>
      rw [hfil] at hnone
      exact Option.some_ne_none a hnone

/-- Claim C10 witness: the concrete missing-identifier run produces a
"sub-nan" participant row. -/
theorem C10_missing_id_becomes_nan_witness :
    ∃ l, (convert_dataset envC10).participants = some l ∧ ("sub-nan") ∈ l :=
  C10_missing_id_becomes_nan.2.1 envC10 [rowC10] rowC10 rfl
    (List.mem_singleton.2 rfl) rfl

end RatsBids
